import Mathlib

/-!
Shallow embedding of `src/api/main.py` (a FastAPI chat gateway that forwards
chat requests to a remote inference backend).

Modelling conventions:
* JSON values are an inductive `Json`; JSON numbers are modelled as rationals
  (the gateway performs no arithmetic on them, it only copies them around).
* Python dicts are association lists with Python insertion-order semantics;
  `{**a, **b}` is `dictMerge a b`, `d.get(k)` (default `None`) is `pyGetD`,
  `d.get(k, default)` is modelled with `Option.getD`.
* `os.getenv` results are `Option String` (`none` = variable absent).
* Python `x or ""` for an optional string is `pyOrEmpty`; f-string
  interpolation of an `Option String` is `fstr` (Python prints `None`).
* `bytes.decode("utf-8", errors)` is `utf8Decode` with an error-handling
  mode (`ignore` drops invalid bytes, `replace` substitutes U+FFFD),
  implementing standard UTF-8 decoding with maximal-subpart error handling
  as CPython does.
* The outbound HTTP POST is modelled by a `backend : Json → BackendResponse`
  function argument; `chat` returns the gateway result together with the
  number of outbound calls made.
* `raise HTTPException(status, detail)` is `GatewayResult.httpError`;
  a plain `return data` from the handler is `GatewayResult.success`
  (FastAPI serves it with HTTP status 200).
* Module-level provider resolution (lines 10-22 of `main.py`, which raises
  `RuntimeError` for an unsupported `PROVIDER`, preventing startup) is the
  function `resolve : Env → Except String ProviderConfig`.
-/

namespace MedAI

/-- JSON values; numbers are rationals (the gateway only copies them). -/
inductive Json where
  | null : Json
  | bool (b : Bool) : Json
  | num (q : Rat) : Json
  | str (s : String) : Json
  | arr (elems : List Json) : Json
  | obj (fields : List (String × Json)) : Json

/-- Python dict lookup on an association list: value of the first binding
of `k`, `none` when `k` is absent (`k in d` is `(dictGet d k).isSome`). -/
def dictGet (d : List (String × Json)) (k : String) : Option Json :=
  (d.find? (fun p => p.1 == k)).map Prod.snd

/-- Python `{**a, **b}`: keys of `a` keep their position but take `b`'s
value when `b` also binds them; keys only in `b` are appended in order. -/
def dictMerge (a b : List (String × Json)) : List (String × Json) :=
  a.map (fun p => (p.1, (dictGet b p.1).getD p.2))
    ++ b.filter (fun p => (dictGet a p.1).isNone)

/-- Python `d.get(k)`: the binding of `k`, or `None` when absent. -/
def pyGetD (d : List (String × Json)) (k : String) : Json :=
  (dictGet d k).getD Json.null

/-- Python `x or ""` for `x : Optional[str]` (empty and `None` are falsy). -/
def pyOrEmpty (o : Option String) : String :=
  match o with
  | some s => if s = "" then "" else s
  | none => ""

/-- Python f-string interpolation of an `Optional[str]` (`None` prints as
the four-character string `"None"`). -/
def fstr (o : Option String) : String :=
  match o with
  | some s => s
  | none => "None"

/-- Python `s.rstrip("/")`: remove every trailing `'/'`. -/
def rstripSlash (s : String) : String :=
  String.mk ((s.toList.reverse.dropWhile (fun c => c == '/')).reverse)

/-- The environment variables read by lines 10-22 of `main.py`. -/
structure Env where
  provider : Option String
  hfApiBase : Option String
  hfApiKey : Option String
  runpodApiBase : Option String
  runpodApiKey : Option String

/-- The process-wide provider configuration produced at startup. -/
structure ProviderConfig where
  kind : String
  baseURL : String
  authHeader : String

/-- Lines 10-22 of `main.py`: select the provider kind from `PROVIDER`
(default `"HF_TGI"`, the spec's `TGI` kind) and compute `BASE_URL` and
`AUTH_HEADER`; an unrecognized kind raises `RuntimeError("Unsupported
PROVIDER")` at import time, so the process never starts serving. -/
def resolve (env : Env) : Except String ProviderConfig :=
  let PROVIDER := env.provider.getD "HF_TGI"
  if PROVIDER = "HF_TGI" then
    .ok { kind := PROVIDER
          baseURL := rstripSlash (pyOrEmpty env.hfApiBase) ++ "/v1"
          authHeader := "Bearer " ++ fstr env.hfApiKey }
  else if PROVIDER = "RUNPOD_OPENAI" then
    .ok { kind := PROVIDER
          baseURL := rstripSlash (pyOrEmpty env.runpodApiBase)
          authHeader := "Bearer " ++ fstr env.runpodApiKey }
  else
    .error "Unsupported PROVIDER"

/-- `DEFAULT_GEN` from `main.py`. -/
def DEFAULT_GEN : List (String × Json) :=
  [("temperature", Json.num 0.6),
   ("top_p", Json.num 0.95),
   ("max_tokens", Json.num 8192)]

/-- The parsed request body of `POST /chat`: `messages` and
`generation_config` as extracted by `body.get(...)` (`none` = key absent). -/
structure ChatBody where
  messages : Option (List Json)
  generation_config : Option (List (String × Json))

/-- Line 55 of `main.py`: `gen = {**DEFAULT_GEN, **body.get("generation_config", {})}`. -/
def mergedGen (body : ChatBody) : List (String × Json) :=
  dictMerge DEFAULT_GEN (body.generation_config.getD [])

/-- The `sampling_params` object of the outbound payload (lines 59-63). -/
def samplingParams (body : ChatBody) : List (String × Json) :=
  [("max_tokens", pyGetD (mergedGen body) "max_tokens"),
   ("temperature", pyGetD (mergedGen body) "temperature"),
   ("top_p", pyGetD (mergedGen body) "top_p")]

/-- The outbound payload (lines 56-65): wraps `messages` and `sampling_params`
under `"input"`. -/
def buildPayload (body : ChatBody) : Json :=
  Json.obj [("input", Json.obj
    [("messages", Json.arr (body.messages.getD [])),
     ("sampling_params", Json.obj (samplingParams body))])]

/-- The backend's HTTP response as the gateway observes it: the status code,
the raw body bytes (`resp.aread()`), and the JSON parse of the body
(`resp.json()`). -/
structure BackendResponse where
  status_code : Nat
  bodyBytes : List Nat
  bodyJson : Json

/-- Error-handling mode of `bytes.decode("utf-8", mode)`. -/
inductive DecodeMode where
  | ignore : DecodeMode
  | replace : DecodeMode

/-- Is `b` a UTF-8 continuation byte (`0x80..0xBF`)? -/
def isCont (b : Nat) : Bool := 0x80 ≤ b && b ≤ 0xBF

/-- What a decode error contributes: nothing under `ignore`, U+FFFD under
`replace` (CPython's `errors="ignore"` / `errors="replace"`). -/
def errOut (m : DecodeMode) : List Char :=
  match m with
  | .ignore => []
  | .replace => [Char.ofNat 0xFFFD]

/-- Decoder state: either at a sequence boundary, or inside a multi-byte
sequence still needing `count` continuation bytes, with the accumulated
code-point bits and the valid range for the next byte (the range encodes
the UTF-8 restrictions after lead bytes E0/ED/F0/F4). -/
inductive Utf8State where
  | start : Utf8State
  | need (count : Nat) (acc : Nat) (lo hi : Nat) : Utf8State

/-- Process one byte at a sequence boundary: ASCII is emitted, a valid lead
byte opens a multi-byte sequence, anything else is one decode error. -/
def utf8Step1 (m : DecodeMode) (b : Nat) : List Char × Utf8State :=
  if b < 0x80 then ([Char.ofNat b], .start)
  else if 0xC2 ≤ b && b ≤ 0xDF then ([], .need 1 (b - 0xC0) 0x80 0xBF)
  else if 0xE0 ≤ b && b ≤ 0xEF then
    ([], .need 2 (b - 0xE0)
      (if b = 0xE0 then 0xA0 else 0x80) (if b = 0xED then 0x9F else 0xBF))
  else if 0xF0 ≤ b && b ≤ 0xF4 then
    ([], .need 3 (b - 0xF0)
      (if b = 0xF0 then 0x90 else 0x80) (if b = 0xF4 then 0x8F else 0xBF))
  else (errOut m, .start)

/-- UTF-8 decoding with maximal-subpart error handling, as CPython's
`bytes.decode("utf-8", ...)`: each invalid sequence (invalid lead byte,
out-of-range continuation, truncation) is one error consuming the maximal
valid subpart, and the offending byte is then reprocessed as a lead. -/
def utf8Run (m : DecodeMode) : Utf8State → List Nat → List Char
  | .start, [] => []
  | .need _ _ _ _, [] => errOut m
  | .start, b :: rest =>
    (utf8Step1 m b).1 ++ utf8Run m (utf8Step1 m b).2 rest
  | .need n acc lo hi, b :: rest =>
    if lo ≤ b && b ≤ hi then
      if n ≤ 1 then
        Char.ofNat (acc * 0x40 + (b - 0x80)) :: utf8Run m .start rest
      else
        utf8Run m (.need (n - 1) (acc * 0x40 + (b - 0x80)) 0x80 0xBF) rest
    else
      errOut m ++ (utf8Step1 m b).1 ++ utf8Run m (utf8Step1 m b).2 rest

/-- Decode a whole byte list from the boundary state. -/
def utf8DecodeList (m : DecodeMode) (bs : List Nat) : List Char :=
  utf8Run m .start bs

/-- `bytes.decode("utf-8", mode)` as a `String`. -/
def utf8Decode (m : DecodeMode) (bs : List Nat) : String :=
  String.mk (utf8DecodeList m bs)

/-- What the `/chat` handler returns to its caller: a successful plain
return (served as HTTP 200 with the JSON body) or a raised
`HTTPException(status, detail)`. -/
inductive GatewayResult where
  | success (body : Json) : GatewayResult
  | httpError (status : Nat) (detail : String) : GatewayResult

/-- Lines 72-77 of `main.py`: map the backend response. Non-200: re-raise
with the backend's status and the raw body decoded with
`decode("utf-8", "ignore")`. 200: return `resp.json()` verbatim. -/
def handleResp (resp : BackendResponse) : GatewayResult :=
  if resp.status_code ≠ 200 then
    .httpError resp.status_code (utf8Decode .ignore resp.bodyBytes)
  else
    .success resp.bodyJson

/-- The `/chat` handler (lines 48-77): validate `messages`, merge generation
parameters, build the payload, make the outbound call, map the response.
The second component counts outbound calls. -/
def chat (body : ChatBody) (backend : Json → BackendResponse) :
    GatewayResult × Nat :=
  let messages := body.messages.getD []
  if messages.isEmpty then
    (.httpError 400 "messages[] required", 0)
  else
    (handleResp (backend (buildPayload body)), 1)

/-- A concrete chat message used in concrete instantiations. -/
def exMsg : Json :=
  Json.obj [("role", Json.str "user"), ("content", Json.str "hi")]

/-! ### Helper lemmas -/

/-- `find?` over a `filter` is `find?` with the conjoined predicate. -/
theorem find?_filter_eq {α : Type} (l : List α) (p q : α → Bool) :
    (l.filter q).find? p = l.find? (fun x => q x && p x) := by
  induction l with
  | nil => rfl
  | cons x t ih =>
    by_cases hq : q x
    · cases hp : p x <;>
        simp [List.filter_cons, hq, List.find?_cons, hp, ih]
    · simp only [Bool.not_eq_true] at hq
      simp [List.filter_cons, hq, List.find?_cons, ih]

/-- `find?` only depends on the predicate's values on the list. -/
theorem find?_congr_mem {α : Type} (l : List α) (p q : α → Bool)
    (h : ∀ x ∈ l, p x = q x) : l.find? p = l.find? q := by
  induction l with
  | nil => rfl
  | cons x t ih =>
    have hx := h x (by simp)
    rw [List.find?_cons, List.find?_cons, hx,
      ih (fun y hy => h y (by simp [hy]))]

/-- Lookup in a Python dict merge `{**a, **b}`: the value from `b` when `b`
binds the key, otherwise the value from `a`. -/
theorem dictGet_dictMerge (a b : List (String × Json)) (k : String) :
    dictGet (dictMerge a b) k = (dictGet b k).or (dictGet a k) := by
  unfold dictGet dictMerge
  rw [List.find?_append, List.find?_map]
  have hcomp : ((fun p : String × Json => p.1 == k) ∘
      fun p : String × Json => (p.1, (dictGet b p.1).getD p.2)) =
      (fun p : String × Json => p.1 == k) := rfl
  rw [hcomp]
  cases ha : a.find? (fun p : String × Json => p.1 == k) with
  | some pa =>
    have hkey : pa.1 = k := by
      have := List.find?_some ha
      exact beq_iff_eq.mp this
    cases hb : b.find? (fun p : String × Json => p.1 == k) with
    | some pb =>
      simp [Option.or_some, hkey, dictGet, hb]
    | none =>
      simp [Option.or_some, hkey, dictGet, hb]
  | none =>
    rw [find?_filter_eq]
    rw [find?_congr_mem (q := fun p : String × Json => p.1 == k)]
    · simp [Option.none_or, Option.or_none]
    · intro x _
      cases hx : (x.1 == k) with
      | false => simp
      | true =>
        have hxk : x.1 = k := beq_iff_eq.mp hx
        simp [hxk, dictGet, ha]

/-- `dropWhile` does nothing when the head does not satisfy the predicate. -/
theorem dropWhile_eq_self_of_head {α : Type} (l : List α) (p : α → Bool)
    (h : ∀ c, l.head? = some c → p c = false) : l.dropWhile p = l := by
  cases l with
  | nil => rfl
  | cons x t => simp [List.dropWhile_cons, h x rfl]

/-- `rstrip("/")` leaves a string with no trailing slash unchanged. -/
theorem rstripSlash_eq_self (s : String) (h : s.toList.getLast? ≠ some '/') :
    rstripSlash s = s := by
  unfold rstripSlash
  rw [dropWhile_eq_self_of_head]
  · rw [List.reverse_reverse]
    cases s
    rfl
  · intro c hc
    rw [List.head?_reverse] at hc
    have hne : c ≠ '/' := fun he => h (he ▸ hc)
    simp [hne]

/-- `rstrip("/")` removes a single trailing slash appended to a string with
no trailing slash. -/
theorem rstripSlash_append_slash (s : String)
    (h : s.toList.getLast? ≠ some '/') : rstripSlash (s ++ "/") = s := by
  unfold rstripSlash
  have h1 : (s ++ "/").toList = s.toList ++ ['/'] := by
    show (s ++ "/").data = s.data ++ ['/']
    rw [String.data_append]
  rw [h1, List.reverse_append]
  show String.mk ((('/' :: s.toList.reverse).dropWhile fun c => c == '/')).reverse = s
  rw [List.dropWhile_cons]
  simp only [show (('/' : Char) == '/') = true from rfl, if_pos]
  rw [dropWhile_eq_self_of_head]
  · rw [List.reverse_reverse]
    cases s
    rfl
  · intro c hc
    rw [List.head?_reverse] at hc
    have hne : c ≠ '/' := fun he => h (he ▸ hc)
    simp [hne]

/-- `pyOrEmpty` of a present value is the value itself (Python `s or ""`
collapses only the empty string, which is already itself). -/
theorem pyOrEmpty_some (s : String) : pyOrEmpty (some s) = s := by
  show (if s = "" then "" else s) = s
  split
  · rename_i hs
    exact hs.symm
  · rfl

/-- A request with non-empty `messages` passes validation. -/
theorem isEmpty_false_of_ne_nil (body : ChatBody)
    (hmsg : body.messages.getD [] ≠ []) :
    (body.messages.getD []).isEmpty = false := by
  cases hb : body.messages.getD [] with
  | nil => exact absurd hb hmsg
  | cons x t => rfl

/-! ### Claims -/

/-- Claim C1: for every chat request with non-empty messages, the merged
generation parameters start from the fixed defaults (temperature 0.6,
top_p 0.95, max_tokens 8192) and overlay every key present in the caller's
generation_config, caller keys taking precedence key-by-key (shallow
merge); the handler dispatches the payload built from this merge; with no
generation_config the outbound sampling_params are exactly
max_tokens 8192, temperature 0.6, top_p 0.95, and the partial config
`{"temperature": 0.2}` overrides only temperature. -/
theorem C1_parameter_merge (body : ChatBody)
    (hmsg : body.messages.getD [] ≠ []) :
    (∀ k, dictGet (mergedGen body) k
        = (dictGet (body.generation_config.getD []) k).or (dictGet DEFAULT_GEN k))
    ∧ (∀ backend, chat body backend = (handleResp (backend (buildPayload body)), 1))
    ∧ (body.generation_config = none →
        samplingParams body =
          [("max_tokens", Json.num 8192), ("temperature", Json.num 0.6),
           ("top_p", Json.num 0.95)])
    ∧ (body.generation_config = some [("temperature", Json.num 0.2)] →
        samplingParams body =
          [("max_tokens", Json.num 8192), ("temperature", Json.num 0.2),
           ("top_p", Json.num 0.95)]) := by
  have he := isEmpty_false_of_ne_nil body hmsg
  obtain ⟨msgs, gc⟩ := body
  refine ⟨fun k => dictGet_dictMerge _ _ k, fun backend => ?_, fun h => ?_, fun h => ?_⟩
  · simp [chat, he]
  · cases h
    rfl
  · cases h
    rfl

/-- Witness for C1: two concrete requests (no generation_config; partial
generation_config overriding only temperature). -/
theorem C1_parameter_merge_witness :
    samplingParams ⟨some [exMsg], none⟩ =
      [("max_tokens", Json.num 8192), ("temperature", Json.num 0.6),
       ("top_p", Json.num 0.95)]
    ∧ samplingParams ⟨some [exMsg], some [("temperature", Json.num 0.2)]⟩ =
      [("max_tokens", Json.num 8192), ("temperature", Json.num 0.2),
       ("top_p", Json.num 0.95)] :=
  ⟨(C1_parameter_merge ⟨some [exMsg], none⟩ (by simp)).2.2.1 rfl,
   (C1_parameter_merge ⟨some [exMsg], some [("temperature", Json.num 0.2)]⟩
      (by simp)).2.2.2 rfl⟩

/-- Claim C2: for every chat request that reaches payload construction, the
outbound payload wraps the caller's messages unchanged together with a
sampling_params object containing exactly the keys max_tokens, temperature
and top_p; any other key (e.g. penalties) is not placed in the payload. -/
theorem C2_payload_shape (body : ChatBody)
    (hmsg : body.messages.getD [] ≠ []) :
    buildPayload body = Json.obj [("input", Json.obj
      [("messages", Json.arr (body.messages.getD [])),
       ("sampling_params", Json.obj (samplingParams body))])]
    ∧ (samplingParams body).map Prod.fst = ["max_tokens", "temperature", "top_p"]
    ∧ ∀ k, k ∉ (["max_tokens", "temperature", "top_p"] : List String) →
        dictGet (samplingParams body) k = none := by
  refine ⟨rfl, rfl, fun k hk => ?_⟩
  simp only [List.mem_cons, List.not_mem_nil, or_false, not_or] at hk
  obtain ⟨h1, h2, h3⟩ := hk
  have e1 : (("max_tokens" : String) == k) = false :=
    beq_eq_false_iff_ne.mpr (Ne.symm h1)
  have e2 : (("temperature" : String) == k) = false :=
    beq_eq_false_iff_ne.mpr (Ne.symm h2)
  have e3 : (("top_p" : String) == k) = false :=
    beq_eq_false_iff_ne.mpr (Ne.symm h3)
  simp [samplingParams, dictGet, List.find?_cons, e1, e2, e3]

/-- Witness for C2: a request whose generation_config carries an extra key
(`presence_penalty`); the outbound sampling_params still has exactly the
three forwarded keys and the extra key is dropped. -/
theorem C2_payload_shape_witness :
    (samplingParams ⟨some [exMsg], some [("presence_penalty", Json.num 1)]⟩).map Prod.fst
      = ["max_tokens", "temperature", "top_p"]
    ∧ dictGet (samplingParams ⟨some [exMsg], some [("presence_penalty", Json.num 1)]⟩)
        "presence_penalty" = none :=
  ⟨(C2_payload_shape ⟨some [exMsg], some [("presence_penalty", Json.num 1)]⟩
      (by simp)).2.1,
   (C2_payload_shape ⟨some [exMsg], some [("presence_penalty", Json.num 1)]⟩
      (by simp)).2.2 "presence_penalty" (by decide)⟩

/-- Claim C3 (counterexample): the claim says the failure body is the raw
backend body decoded with invalid bytes REPLACED, but the code decodes
with `errors="ignore"`, which DROPS invalid bytes. On a 503 whose body is
the bytes 0xFF 0x61, the gateway's detail is `"a"`, while decoding with
replacement yields `"�a"` — a different string. -/
theorem C3_failure_decode_counterexample :
    (chat ⟨some [exMsg], none⟩ (fun _ => ⟨503, [0xFF, 0x61], Json.null⟩)).1
      = .httpError 503 (utf8Decode .ignore [0xFF, 0x61])
    ∧ utf8Decode .ignore [0xFF, 0x61] = "a"
    ∧ utf8Decode .replace [0xFF, 0x61] = "�" ++ "a"
    ∧ ("a" : String) ≠ "�" ++ "a" :=
  ⟨rfl, by decide, by decide, by decide⟩

/-- Claim C3 (amended): for every chat request whose outbound call returns
a backend status other than 200, the gateway returns a failure whose
status code equals the backend's status code and whose body is the
backend's raw body decoded as UTF-8 with invalid bytes DROPPED
(`errors="ignore"`, not raising a secondary error), with no re-wrapping;
a backend 503 with body "overloaded" yields status 503 and body
"overloaded" unchanged. -/
theorem C3_failure_passthrough (body : ChatBody)
    (backend : Json → BackendResponse)
    (hmsg : body.messages.getD [] ≠ [])
    (hs : (backend (buildPayload body)).status_code ≠ 200) :
    (chat body backend).1
      = .httpError (backend (buildPayload body)).status_code
          (utf8Decode .ignore (backend (buildPayload body)).bodyBytes) := by
  have he := isEmpty_false_of_ne_nil body hmsg
  simp [chat, handleResp, he, hs]

/-- Witness for C3 (amended): a backend 503 whose body is the UTF-8 bytes
of "overloaded" passes through as status 503 with body "overloaded". -/
theorem C3_failure_passthrough_witness :
    (chat ⟨some [exMsg], none⟩
        (fun _ => ⟨503, [111, 118, 101, 114, 108, 111, 97, 100, 101, 100], Json.null⟩)).1
      = .httpError 503
          (utf8Decode .ignore [111, 118, 101, 114, 108, 111, 97, 100, 101, 100])
    ∧ utf8Decode .ignore [111, 118, 101, 114, 108, 111, 97, 100, 101, 100]
        = "overloaded" :=
  ⟨C3_failure_passthrough ⟨some [exMsg], none⟩
      (fun _ => ⟨503, [111, 118, 101, 114, 108, 111, 97, 100, 101, 100], Json.null⟩)
      (by simp) (by decide),
   by decide⟩

/-- Claim C4: for every chat request whose messages field is absent or the
empty list, the gateway returns HTTP 400 with detail "messages[] required"
and makes zero outbound calls (for every backend, the result is the same
and the call count is 0). -/
theorem C4_empty_messages (body : ChatBody) (backend : Json → BackendResponse)
    (h : body.messages = none ∨ body.messages = some []) :
    chat body backend = (.httpError 400 "messages[] required", 0) := by
  rcases h with h | h <;> simp [chat, h]

/-- Witness for C4: a request with absent messages and one with an empty
messages list, against a backend that would answer 200. -/
theorem C4_empty_messages_witness :
    chat ⟨none, none⟩ (fun _ => ⟨200, [], Json.null⟩)
      = (.httpError 400 "messages[] required", 0)
    ∧ chat ⟨some [], some [("temperature", Json.num 0.2)]⟩
        (fun _ => ⟨200, [], Json.null⟩)
      = (.httpError 400 "messages[] required", 0) :=
  ⟨C4_empty_messages ⟨none, none⟩ _ (Or.inl rfl),
   C4_empty_messages ⟨some [], some [("temperature", Json.num 0.2)]⟩ _ (Or.inr rfl)⟩

/-- Claim C5: provider resolution builds the outbound base URL by stripping
the trailing slash of the configured base and, for kind TGI (code selector
"HF_TGI"), appending "/v1"; for kind RUNPOD_OPENAI no suffix is appended.
Stated for a configured base with no trailing slash and for the same base
with a trailing slash appended. -/
theorem C5_base_url (b : String) (h : b.toList.getLast? ≠ some '/')
    (hk rb rk hb : Option String) :
    (∃ c, resolve ⟨some "HF_TGI", some b, hk, rb, rk⟩ = .ok c
       ∧ c.baseURL = b ++ "/v1")
    ∧ (∃ c, resolve ⟨some "HF_TGI", some (b ++ "/"), hk, rb, rk⟩ = .ok c
       ∧ c.baseURL = b ++ "/v1")
    ∧ (∃ c, resolve ⟨some "RUNPOD_OPENAI", hb, hk, some b, rk⟩ = .ok c
       ∧ c.baseURL = b)
    ∧ (∃ c, resolve ⟨some "RUNPOD_OPENAI", hb, hk, some (b ++ "/"), rk⟩ = .ok c
       ∧ c.baseURL = b) := by
  refine ⟨⟨_, rfl, ?_⟩, ⟨_, rfl, ?_⟩, ⟨_, rfl, ?_⟩, ⟨_, rfl, ?_⟩⟩
  · show rstripSlash (pyOrEmpty (some b)) ++ "/v1" = b ++ "/v1"
    rw [pyOrEmpty_some, rstripSlash_eq_self b h]
  · show rstripSlash (pyOrEmpty (some (b ++ "/"))) ++ "/v1" = b ++ "/v1"
    rw [pyOrEmpty_some, rstripSlash_append_slash b h]
  · show rstripSlash (pyOrEmpty (some b)) = b
    rw [pyOrEmpty_some, rstripSlash_eq_self b h]
  · show rstripSlash (pyOrEmpty (some (b ++ "/"))) = b
    rw [pyOrEmpty_some, rstripSlash_append_slash b h]

/-- Witness for C5: configured base "https://host/" under kind TGI resolves
to "https://host/v1". -/
theorem C5_base_url_witness :
    ∃ c, resolve ⟨some "HF_TGI", some ("https://host" ++ "/"), none, none, none⟩
        = .ok c
      ∧ c.baseURL = "https://host" ++ "/v1" :=
  (C5_base_url "https://host" (by decide) none none none none).2.1

/-- Claim C6: for every chat request whose outbound call returns backend
status 200, the gateway returns the backend body's JSON parse verbatim as
the success response (served as HTTP 200), with no schema validation on
its shape (the body JSON is universally quantified). -/
theorem C6_success_passthrough (body : ChatBody)
    (backend : Json → BackendResponse)
    (hmsg : body.messages.getD [] ≠ [])
    (h200 : (backend (buildPayload body)).status_code = 200) :
    chat body backend = (.success (backend (buildPayload body)).bodyJson, 1) := by
  have he := isEmpty_false_of_ne_nil body hmsg
  simp [chat, handleResp, he, h200]

/-- Witness for C6: a backend 200 with body `{"id":"abc"}` yields success
with body `{"id":"abc"}` unchanged. -/
theorem C6_success_passthrough_witness :
    chat ⟨some [exMsg], none⟩
        (fun _ => ⟨200, [], Json.obj [("id", Json.str "abc")]⟩)
      = (.success (Json.obj [("id", Json.str "abc")]), 1) :=
  C6_success_passthrough ⟨some [exMsg], none⟩
    (fun _ => ⟨200, [], Json.obj [("id", Json.str "abc")]⟩) (by simp) rfl

/-- Claim C7: provider resolution succeeds exactly for the recognized kinds
(TGI, selected by "HF_TGI", and RUNPOD_OPENAI); any other configured kind
makes resolution fail fast with the fatal configuration error
"Unsupported PROVIDER" (the module-level `raise RuntimeError`, so the
process never starts serving traffic). -/
theorem C7_unknown_provider (env : Env) :
    ((∃ c, resolve env = .ok c) ↔
      (env.provider.getD "HF_TGI" = "HF_TGI"
        ∨ env.provider.getD "HF_TGI" = "RUNPOD_OPENAI"))
    ∧ ((env.provider.getD "HF_TGI" ≠ "HF_TGI"
        ∧ env.provider.getD "HF_TGI" ≠ "RUNPOD_OPENAI") →
      resolve env = .error "Unsupported PROVIDER") := by
  by_cases h1 : env.provider.getD "HF_TGI" = "HF_TGI"
  · constructor
    · simp [resolve, h1]
    · intro hc
      exact absurd h1 hc.1
  · by_cases h2 : env.provider.getD "HF_TGI" = "RUNPOD_OPENAI"
    · constructor
      · simp [resolve, h1, h2]
      · intro hc
        exact absurd h2 hc.2
    · constructor
      · simp [resolve, h1, h2]
      · intro _
        simp [resolve, h1, h2]

/-- Witness for C7: the unrecognized kind "MISTRAL" fails resolution. -/
theorem C7_unknown_provider_witness :
    resolve ⟨some "MISTRAL", none, none, none, none⟩
      = .error "Unsupported PROVIDER" :=
  (C7_unknown_provider ⟨some "MISTRAL", none, none, none, none⟩).2
    ⟨by decide, by decide⟩

/-- Claim C8: for both recognized kinds, resolution succeeds whether or not
the API key is configured (no fail-fast on a missing key), and when the
key is present the produced auth header is "Bearer " followed by the key. -/
theorem C8_auth_header (env : Env)
    (h : env.provider.getD "HF_TGI" = "HF_TGI"
      ∨ env.provider.getD "HF_TGI" = "RUNPOD_OPENAI") :
    ∃ c, resolve env = .ok c
      ∧ (env.provider.getD "HF_TGI" = "HF_TGI" →
          ∀ k, env.hfApiKey = some k → c.authHeader = "Bearer " ++ k)
      ∧ (env.provider.getD "HF_TGI" = "RUNPOD_OPENAI" →
          ∀ k, env.runpodApiKey = some k → c.authHeader = "Bearer " ++ k) := by
  rcases h with h1 | h2
  · refine ⟨⟨"HF_TGI", rstripSlash (pyOrEmpty env.hfApiBase) ++ "/v1",
        "Bearer " ++ fstr env.hfApiKey⟩,
      by simp [resolve, h1], fun _ k hk => ?_, fun h2 => ?_⟩
    · show "Bearer " ++ fstr env.hfApiKey = "Bearer " ++ k
      rw [hk]
      rfl
    · rw [h1] at h2
      exact absurd h2 (by decide)
  · have h1 : ¬ env.provider.getD "HF_TGI" = "HF_TGI" := by
      rw [h2]
      decide
    refine ⟨⟨"RUNPOD_OPENAI", rstripSlash (pyOrEmpty env.runpodApiBase),
        "Bearer " ++ fstr env.runpodApiKey⟩,
      by simp [resolve, h1, h2], fun h1' => ?_, fun _ k hk => ?_⟩
    · exact absurd h1' h1
    · show "Bearer " ++ fstr env.runpodApiKey = "Bearer " ++ k
      rw [hk]
      rfl

/-- Witness for C8: a TGI environment with configured key "secret" resolves
with auth header "Bearer secret"; one with an absent key still resolves. -/
theorem C8_auth_header_witness :
    (∃ c, resolve ⟨some "HF_TGI", some "https://host", some "secret", none, none⟩
        = .ok c ∧ c.authHeader = "Bearer " ++ "secret")
    ∧ (∃ c, resolve ⟨some "HF_TGI", some "https://host", none, none, none⟩
        = .ok c) := by
  constructor
  · obtain ⟨c, hc, hA, _⟩ :=
      C8_auth_header ⟨some "HF_TGI", some "https://host", some "secret", none, none⟩
        (Or.inl rfl)
    exact ⟨c, hc, hA rfl "secret" rfl⟩
  · obtain ⟨c, hc, _, _⟩ :=
      C8_auth_header ⟨some "HF_TGI", some "https://host", none, none, none⟩
        (Or.inl rfl)
    exact ⟨c, hc⟩

/-- Claim C9: a forwarded key (max_tokens, temperature or top_p) that the
caller's generation_config maps to an explicit null overrides the default
in the shallow merge and is placed into the outbound sampling_params as
null; the default is not restored. -/
theorem C9_null_override (body : ChatBody) (k : String)
    (hk : k ∈ (["max_tokens", "temperature", "top_p"] : List String))
    (hnull : dictGet (body.generation_config.getD []) k = some Json.null) :
    dictGet (samplingParams body) k = some Json.null := by
  have hval : pyGetD (mergedGen body) k = Json.null := by
    rw [pyGetD, mergedGen, dictGet_dictMerge, hnull]
    rfl
  fin_cases hk <;>
    simp [samplingParams, dictGet, List.find?_cons, hval]

/-- Witness for C9: generation_config `{"temperature": null}` puts null
into the outbound sampling_params' temperature. -/
theorem C9_null_override_witness :
    dictGet (samplingParams ⟨some [exMsg], some [("temperature", Json.null)]⟩)
        "temperature" = some Json.null :=
  C9_null_override ⟨some [exMsg], some [("temperature", Json.null)]⟩
    "temperature" (by decide) rfl

/-- Claim C10: resolution never fails on an absent or empty configured base
URL: kind TGI (selector "HF_TGI") resolves to base URL "/v1", kind
RUNPOD_OPENAI to the empty string. -/
theorem C10_empty_base (env : Env) :
    (env.provider.getD "HF_TGI" = "HF_TGI" →
      (env.hfApiBase = none ∨ env.hfApiBase = some "") →
      ∃ c, resolve env = .ok c ∧ c.baseURL = "/v1")
    ∧ (env.provider.getD "HF_TGI" = "RUNPOD_OPENAI" →
      (env.runpodApiBase = none ∨ env.runpodApiBase = some "") →
      ∃ c, resolve env = .ok c ∧ c.baseURL = "") := by
  constructor
  · intro h1 hb
    refine ⟨⟨"HF_TGI", rstripSlash (pyOrEmpty env.hfApiBase) ++ "/v1",
        "Bearer " ++ fstr env.hfApiKey⟩, by simp [resolve, h1], ?_⟩
    show rstripSlash (pyOrEmpty env.hfApiBase) ++ "/v1" = "/v1"
    rcases hb with hb | hb <;> rw [hb] <;> rfl
  · intro h2 hb
    have h1 : ¬ env.provider.getD "HF_TGI" = "HF_TGI" := by
      rw [h2]
      decide
    refine ⟨⟨"RUNPOD_OPENAI", rstripSlash (pyOrEmpty env.runpodApiBase),
        "Bearer " ++ fstr env.runpodApiKey⟩, by simp [resolve, h1, h2], ?_⟩
    show rstripSlash (pyOrEmpty env.runpodApiBase) = ""
    rcases hb with hb | hb <;> rw [hb] <;> rfl

/-- Witness for C10: absent TGI base resolves to "/v1"; empty RunPod base
resolves to "". -/
theorem C10_empty_base_witness :
    (∃ c, resolve ⟨some "HF_TGI", none, none, none, none⟩ = .ok c
      ∧ c.baseURL = "/v1")
    ∧ (∃ c, resolve ⟨some "RUNPOD_OPENAI", none, none, some "", none⟩ = .ok c
      ∧ c.baseURL = "") :=
  ⟨(C10_empty_base ⟨some "HF_TGI", none, none, none, none⟩).1 rfl (Or.inl rfl),
   (C10_empty_base ⟨some "RUNPOD_OPENAI", none, none, some "", none⟩).2 rfl
     (Or.inr rfl)⟩

end MedAI
